import Mathlib

set_option maxHeartbeats 1000000

namespace StreamLastDeploy

/-- Shallow model of a Python runtime value, covering the shapes the
normalizer and the cascade handle: `None`, booleans, integers, strings,
lists, dicts (association lists over string keys) and attribute-style
objects (association lists over attribute names). -/
inductive PyVal where
  | none
  | bool (b : Bool)
  | int (n : Int)
  | str (s : String)
  | list (xs : List PyVal)
  | dict (kvs : List (String × PyVal))
  | obj (attrs : List (String × PyVal))

/-- Python exception kinds raised by the modelled code paths. -/
inductive PyErr where
  | typeError
  | attributeError
deriving DecidableEq, Repr

mutual

/-- Structural equality on modelled Python values: the model of Python
`==` on the builtin shapes (`None`, bool, int, str, list, dict).  For
`obj` Python compares by identity; the structural comparison here is a
modelling approximation, and every theorem that depends on equality of
keys restricts its origins to scalar values where `==` is structural. -/
def pyBeq : PyVal → PyVal → Bool
  | .none, .none => true
  | .bool a, .bool b => a == b
  | .int a, .int b => a == b
  | .str a, .str b => a == b
  | .list xs, .list ys => pyBeqList xs ys
  | .dict xs, .dict ys => pyBeqKV xs ys
  | .obj xs, .obj ys => pyBeqKV xs ys
  | _, _ => false

def pyBeqList : List PyVal → List PyVal → Bool
  | [], [] => true
  | x :: xs, y :: ys => pyBeq x y && pyBeqList xs ys
  | _, _ => false

def pyBeqKV : List (String × PyVal) → List (String × PyVal) → Bool
  | [], [] => true
  | (k, v) :: xs, (l, w) :: ys => k == l && pyBeq v w && pyBeqKV xs ys
  | _, _ => false

end

/-- Python truthiness of a value (`bool(v)`): `None`, `False`, `0`, the
empty string and empty containers are falsy; objects are truthy. -/
def pyTruthy : PyVal → Bool
  | .none => false
  | .bool b => b
  | .int n => n != 0
  | .str s => !s.isEmpty
  | .list xs => !xs.isEmpty
  | .dict kvs => !kvs.isEmpty
  | .obj _ => true

/-- `v` is a scalar builtin (`None`, bool, int, str): on these Python
equality and hashing are structural. -/
def isScalar : PyVal → Bool
  | .none => true
  | .bool _ => true
  | .int _ => true
  | .str _ => true
  | _ => false

/-- `v` is hashable in Python: scalars and objects (identity hash) are,
lists and dicts are not. -/
def pyHashable : PyVal → Bool
  | .list _ => false
  | .dict _ => false
  | _ => true

/-- Infix check over char lists, used to model Python substring `in`. -/
def listIsInfixOf (needle hay : List Char) : Bool :=
  match hay with
  | [] => needle.isEmpty
  | _ :: t => needle.isPrefixOf hay || listIsInfixOf needle t

/-- Substring containment, the model of Python `needle in hay` on strings. -/
def strContains (hay needle : String) : Bool :=
  listIsInfixOf needle.toList hay.toList

theorem pyBeq_scalar_eq (a b : PyVal) (h : isScalar a = true) :
    pyBeq a b = true ↔ a = b := by
  cases a <;> cases b <;>
    simp_all [pyBeq, isScalar]

/-! ### Intent classifiers (components.py) -/

/-- Enumeration-intent keywords checked by
`_looks_like_dept_listing_request` (components.py line 482). -/
def wantListWords : List String := ["一覧", "リスト", "列挙", "まとめ", "一覧化"]

/-- Person-collection keywords checked by
`_looks_like_dept_listing_request` (components.py line 483). -/
def employeeWords : List String := ["従業員", "社員", "メンバー", "人物", "人員"]

/-- components.py `_looks_like_dept_listing_request` (lines 475-484) for a
string `dept_name`: guard out empty prompts, require the department name
as a substring, then require one enumeration word and one person word.
The prompt is always a string at every call site, so the
`isinstance(prompt, str)` half of the guard is satisfied. -/
def looksLikeDeptListingRequestStr (prompt dept_name : String) : Bool :=
  if prompt = "" then false
  else if !(strContains prompt dept_name) then false
  else
    (wantListWords.any fun k => strContains prompt k) &&
    (employeeWords.any fun k => strContains prompt k)

/-- components.py `_looks_like_dept_listing_request` with `dept_name`
possibly `None` (as called from main.py line 74 via
`detect_dept_listing(chat_message, dept_name=None)`): after the empty
guard, Python evaluates `dept_name not in p`, and with `dept_name = None`
the substring test raises `TypeError` ('in <string>' requires string as
left operand). -/
def looksLikeDeptListingRequest (prompt : String) (dept_name : Option String) :
    Except PyErr Bool :=
  if prompt = "" then .ok false
  else
    match dept_name with
    | Option.none => .error .typeError
    | some d => .ok (looksLikeDeptListingRequestStr prompt d)

/-- components.py `detect_dept_listing` (lines 121-123): public wrapper
around `_looks_like_dept_listing_request`. -/
def detect_dept_listing (prompt : String) (dept_name : Option String) :
    Except PyErr Bool :=
  looksLikeDeptListingRequest prompt dept_name

/-- Topic keywords of `_looks_like_environment_request`
(components.py lines 487-501). -/
def environmentKeywords : List String :=
  ["環境への取り組み", "環境", "サステナビリティ", "ESG", "脱炭素",
   "カーボンニュートラル", "環境方針", "ISO14001"]

/-- components.py `_looks_like_environment_request` (lines 487-501). -/
def looksLikeEnvironmentRequest (prompt : String) : Bool :=
  if prompt = "" then false
  else environmentKeywords.any fun k => strContains prompt k

/-! ### Error formatting (utils.py) and the generator-error handler
(main.py) -/

/-- utils.py `build_error_message` (lines 33-34):
`"\n".join([message, ct.COMMON_ERROR_MESSAGE])`.  The text of
`COMMON_ERROR_MESSAGE` lives in the configuration module and is passed
as a parameter. -/
def build_error_message (commonErrorMessage message : String) : String :=
  message ++ "\n" ++ commonErrorMessage

/-- Quota/rate-limit recognition used by main.py lines 75 and 85: any of
three substrings of the stringified exception. -/
def isQuotaError (errMsg : String) : Bool :=
  strContains errMsg "insufficient_quota" ||
  strContains errMsg "You exceeded your current quota" ||
  strContains errMsg "Error code: 429"

/-- Observable outcome of the generator-error handler of one chat turn. -/
inductive TurnOutcome where
  | offTopicFixed (msg : String)
  | rosterRendered
  | rosterNoMatch (msg : String)
  | searchHitsRendered
  | errorShown (msg : String)
  | crashed (e : PyErr)
deriving DecidableEq, Repr

/-- main.py lines 61-93, the `except` branch around the generator call,
for a non-empty `chatMessage` (the handler only runs after
`if chat_message:`).  Faithful to the module as shipped:
`components.py` defines no `_looks_unrelated_to_corp_docs`, so the
`hasattr` guard on line 65 is `False` and the off-topic branch is
skipped; `detect_dept_listing(chat_message, dept_name=None)` on line 74
is evaluated before the quota substring tests (Python `and` evaluates
its left operand first) and raises `TypeError` for every non-empty
prompt; had it returned `True` under a quota error, line 79 would call
`cp.get_department_from_prompt`, which `components.py` does not define
either, raising `AttributeError`.  `kwSearchSucceeds` abstracts
`render_keyword_search_fallback` (whether the keyword scan of the data
root finds hits). -/
def handleGeneratorError (commonErrorMessage : String)
    (kwSearchSucceeds : String → Bool) (chatMessage errMsg : String) :
    TurnOutcome :=
  match looksLikeDeptListingRequest chatMessage Option.none with
  | .error e => .crashed e
  | .ok isDeptListing =>
    if isDeptListing && isQuotaError errMsg then
      .crashed .attributeError
    else if isQuotaError errMsg then
      if kwSearchSucceeds chatMessage then .searchHitsRendered
      else .errorShown
        (build_error_message commonErrorMessage ("エラーが発生しました: " ++ errMsg))
    else
      .errorShown
        (build_error_message commonErrorMessage ("エラーが発生しました: " ++ errMsg))

/-! ### Claims C1-C4, C9 -/

/-- Claim C3: for every non-empty string prompt, calling
`detect_dept_listing(prompt, dept_name=None)` — exactly the call the
generator-error path makes before checking whether the error is
quota-related — raises `TypeError`, because `None` is used as the left
operand of substring containment on the prompt after the initial
string/emptiness guard passes. -/
theorem c3_detect_dept_listing_none_raises (prompt : String) (h : prompt ≠ "") :
    detect_dept_listing prompt Option.none = .error .typeError := by
  simp [detect_dept_listing, looksLikeDeptListingRequest, h]

/-- Claim C3 witness: the TypeError at a concrete roster-style prompt. -/
theorem c3_detect_dept_listing_none_raises_witness :
    detect_dept_listing "人事部の社員一覧を教えて" Option.none = .error .typeError :=
  c3_detect_dept_listing_none_raises "人事部の社員一覧を教えて" (by decide)

/-- Claim C1 (code bug): the spec promises that a department-listing
query under a quota/rate-limit generator failure attempts the tabular
roster extractor against the full document root and terminates with
`RosterRendered` or `NoMatch`; instead the handler crashes with a
`TypeError` raised by `detect_dept_listing(chat_message, dept_name=None)`
before the roster extractor can run, for every common-error text and
every behaviour of the keyword searcher. -/
theorem c1_quota_dept_listing_crashes
    (commonErrorMessage : String) (kwSearchSucceeds : String → Bool) :
    handleGeneratorError commonErrorMessage kwSearchSucceeds
      "人事部の従業員の一覧を教えてください" "Error code: 429" =
      .crashed .typeError := rfl

/-- Claim C2 (code bug): the spec promises that an off-topic query whose
generator call fails with a quota error terminates with the fixed
`GenericFallback` message; but `components.py` defines no
`_looks_unrelated_to_corp_docs`, so the `hasattr`-guarded off-topic
branch never runs, and the handler instead crashes with the
`detect_dept_listing` `TypeError` on a weather query under
`insufficient_quota`. -/
theorem c2_offtopic_quota_crashes
    (commonErrorMessage : String) (kwSearchSucceeds : String → Bool) :
    handleGeneratorError commonErrorMessage kwSearchSucceeds
      "今日の東京の天気を教えてください" "insufficient_quota: You exceeded your current quota" =
      .crashed .typeError := rfl

/-- Claim C4 (code bug): the spec promises that a generator exception
recognized as non-quota is surfaced unchanged through
`build_error_message` with no fallback attempted; instead the handler
crashes with the `detect_dept_listing` `TypeError` before the quota
substring test and before `st.error`, so the original error text is
never shown. -/
theorem c4_nonquota_error_not_surfaced
    (commonErrorMessage : String) (kwSearchSucceeds : String → Bool) :
    handleGeneratorError commonErrorMessage kwSearchSucceeds
      "経費精算の手順を教えて" "boom" = .crashed .typeError := rfl

/-- Claim C9: for every prompt string and target department name, the
roster-request classifier returns true if and only if the prompt
contains the department name AND at least one enumeration-intent word
AND at least one person-collection word. -/
theorem c9_dept_listing_classifier_iff (prompt dept_name : String) :
    looksLikeDeptListingRequestStr prompt dept_name = true ↔
      (strContains prompt dept_name = true ∧
       (∃ k ∈ wantListWords, strContains prompt k = true) ∧
       (∃ k ∈ employeeWords, strContains prompt k = true)) := by
  by_cases hp : prompt = ""
  · subst hp
    constructor
    · intro h
      simp [looksLikeDeptListingRequestStr] at h
    · rintro ⟨-, ⟨k, hk, hc⟩, -⟩
      exfalso
      fin_cases hk <;> exact absurd hc (by decide)
  · by_cases hc : strContains prompt dept_name
    · simp [looksLikeDeptListingRequestStr, hp, hc, List.any_eq_true]
    · simp [looksLikeDeptListingRequestStr, hp, hc]

/-- Claim C9 witness: the iff at a concrete roster prompt containing the
department name, an enumeration word and a person word. -/
theorem c9_dept_listing_classifier_iff_witness :
    looksLikeDeptListingRequestStr "人事部の社員一覧を出して" "人事部" = true :=
  (c9_dept_listing_classifier_iff "人事部の社員一覧を出して" "人事部").mpr
    ⟨by decide, ⟨"一覧", by decide, by decide⟩, ⟨"社員", by decide, by decide⟩⟩

/-! ### Response Normalizer (components.py `_extract_answer_and_sources`
and helpers) -/

/-- Model of Python `s.strip()`: drop whitespace from both ends.
Implemented over the character list so that it reduces inside the
kernel; whitespace is `Char.isWhitespace`. -/
def pyStrip (s : String) : String :=
  ⟨((s.toList.dropWhile Char.isWhitespace).reverse.dropWhile
      Char.isWhitespace).reverse⟩

/-- Model of Python `s.lower()` (ASCII case folding, which is all the
source ever feeds it: file-extension tests). -/
def strToLower (s : String) : String :=
  ⟨s.toList.map Char.toLower⟩

/-- Model of Python `s.endswith(suffix)`. -/
def strEndsWith (s suffix : String) : Bool :=
  suffix.toList.reverse.isPrefixOf s.toList.reverse

/-- Model of Python `int(s)` on a non-empty all-digit string. -/
def digitsToNat (l : List Char) : Nat :=
  l.foldl (fun acc c => acc * 10 + (c.toNat - 48)) 0

/-- Model of Python `str(v)`.  The textual representation of containers
and objects is abstracted to a placeholder: every use in the source
(final fallback answer text, the all-digit test in page coercion, the
snippet body) depends only on it being a non-empty non-digit string for
containers, which holds of both the placeholder and Python's real
`"[...]"`/`"{...}"`/`"<...>"` forms. -/
def pyStr : PyVal → String
  | .none => "None"
  | .bool true => "True"
  | .bool false => "False"
  | .int n => toString n
  | .str s => s
  | .list _ => "<list>"
  | .dict _ => "<dict>"
  | .obj _ => "<object>"

/-- Model of `getattr(resp, name, None)`: only attribute-style objects
expose these attributes; every other shape yields `None`. -/
def getattrOpt (resp : PyVal) (name : String) : PyVal :=
  match resp with
  | .obj attrs => (attrs.lookup name).getD .none
  | _ => .none

/-- Model of `resp.get(name) if isinstance(resp, dict) else None`. -/
def dictGetOpt (resp : PyVal) (name : String) : PyVal :=
  match resp with
  | .dict kvs => (kvs.lookup name).getD .none
  | _ => .none

/-- Model of `kvs.get(name)` on a dict already known to be a dict. -/
def dGet (kvs : List (String × PyVal)) (name : String) : PyVal :=
  (kvs.lookup name).getD .none

/-- Model of a Python `a or b or ... or z` chain: the first truthy
operand wins and the final operand is returned as-is when none is
truthy. -/
def pyOrLast : List PyVal → PyVal
  | [] => .none
  | v :: rest =>
    if rest.isEmpty then v
    else if pyTruthy v then v else pyOrLast rest

/-- The fixed priority list of answer-text field/key names probed by
`_extract_answer_and_sources` (components.py lines 286-301). -/
def textProbeKeys : List String :=
  ["answer", "content", "text", "output_text", "result", "message", "response"]

/-- Answer-text extraction (components.py lines 286-302): the `or` chain
over attribute probes, then mapping probes, falling back to
`str(resp)`. -/
def extractText (resp : PyVal) : PyVal :=
  pyOrLast ((textProbeKeys.map (getattrOpt resp)) ++
            (textProbeKeys.map (dictGetOpt resp)) ++ [.str (pyStr resp)])

/-- Modelled from the spec (refinement form of C5): probe the ordered
priority list on attribute-style access then mapping-style access, the
first present non-empty (truthy) value wins, and the textual
representation of the response is used when none match. -/
def extractTextSpec (resp : PyVal) : PyVal :=
  match ((textProbeKeys.map (getattrOpt resp)) ++
         (textProbeKeys.map (dictGetOpt resp))).find? pyTruthy with
  | some v => v
  | Option.none => .str (pyStr resp)

/-- Python iteration over a value: lists yield elements, strings yield
one-character strings, dicts yield their keys; scalars and plain objects
are not iterable (`isinstance(v, Iterable)` fails). -/
def pyIterate : PyVal → Option (List PyVal)
  | .list xs => some xs
  | .str s => some (s.toList.map fun c => .str (String.singleton c))
  | .dict kvs => some (kvs.map fun kv => .str kv.1)
  | _ => Option.none

/-- `v` is a Python `str`. -/
def isStrVal : PyVal → Bool
  | .str _ => true
  | _ => false

/-- The ordered dict keys probed for source-document collections
(components.py line 316). -/
def sourceKeys : List String :=
  ["source_documents", "sources", "context", "documents", "docs",
   "relevant_docs", "retrieved_docs"]

/-- Raw source-item collection (components.py lines 305-321): items from
an iterable `source_documents` attribute, then from every recognized
dict key holding an iterable that is not a `str`/`bytes`. -/
def rawSources (resp : PyVal) : List PyVal :=
  let fromAttr :=
    match resp with
    | .obj attrs =>
      match attrs.lookup "source_documents" with
      | some raw => (pyIterate raw).getD []
      | Option.none => []
    | _ => []
  let fromDict :=
    match resp with
    | .dict kvs =>
      (sourceKeys.map fun k =>
        match kvs.lookup k with
        | some v =>
          if (pyIterate v).isSome && !(isStrVal v) then (pyIterate v).getD []
          else []
        | Option.none => []).flatten
    | _ => []
  fromAttr ++ fromDict

/-- Page coercion (components.py lines 390-402): `None` stays absent,
ints (and bools, which are ints in Python) pass through, and any other
value whose stringified, stripped form is a non-empty all-digit string
parses to an int; everything else is absent.  Digits are modelled as
ASCII digits. -/
def pyCoerceInt : PyVal → Option Int
  | .none => Option.none
  | .bool b => some (if b then 1 else 0)
  | .int n => some n
  | v =>
    let s := pyStrip (pyStr v)
    if !s.isEmpty && s.toList.all Char.isDigit then
      some (Int.ofNat (digitsToNat s.toList))
    else Option.none

/-- First candidate that coerces to an int (components.py lines 416-419). -/
def firstCoercible : List PyVal → Option Int
  | [] => Option.none
  | v :: rest =>
    match pyCoerceInt v with
    | some n => some n
    | Option.none => firstCoercible rest

/-- Page keys probed directly and inside a nested `loc` mapping
(components.py lines 404-414). -/
def pageProbeKeys : List String :=
  ["page_number", "page", "page_index", "pageIndex", "page_label"]

/-- components.py `_extract_page_from_meta` (lines 388-420): gather the
values of present page keys, then the same keys inside a `loc` dict, and
return the first coercible one. -/
def _extract_page_from_meta (kvs : List (String × PyVal)) : Option Int :=
  let direct := pageProbeKeys.filterMap fun k => kvs.lookup k
  let fromLoc :=
    match kvs.lookup "loc" with
    | some (.dict loc) => pageProbeKeys.filterMap fun k => loc.lookup k
    | _ => []
  firstCoercible (direct ++ fromLoc)

/-- components.py `_make_snippet` (lines 455-461): falsy content yields
no snippet; otherwise the stringified, stripped text, ellipsis-truncated
to 280 code points. -/
def _make_snippet (text : PyVal) : Option String :=
  if !pyTruthy text then Option.none
  else
    let t := pyStrip (pyStr text)
    if t.length ≤ 280 then some t else some (⟨t.toList.take 279⟩ ++ "…")

/-- Metadata resolution per item (components.py lines 331-339):
`item.metadata` when the attribute exists and is not `None`, else
`item.get("metadata", item)` for dicts (so a dict without a `metadata`
key is its own metadata), else `None`. -/
def resolveMeta (item : PyVal) : PyVal :=
  let m :=
    match item with
    | .obj attrs => (attrs.lookup "metadata").getD .none
    | _ => .none
  match m with
  | .none =>
    (match item with
     | .dict kvs => (kvs.lookup "metadata").getD item
     | _ => .none)
  | v => v

/-- The origin `or` chain over a metadata dict (components.py lines
342-347): `source or file_path or path or url`. -/
def metaSrcChain (kvs : List (String × PyVal)) : PyVal :=
  pyOrLast [dGet kvs "source", dGet kvs "file_path", dGet kvs "path", dGet kvs "url"]

/-- The item-level origin `or` chain (components.py line 352):
`source or url or path`. -/
def itemSrcChain (kvs : List (String × PyVal)) : PyVal :=
  pyOrLast [dGet kvs "source", dGet kvs "url", dGet kvs "path"]

/-- Origin and page resolution for one raw source item (components.py
lines 325-354): read the metadata dict first; if the origin is still
`None` and the item itself is a dict, re-probe the item, also for the
page when it is still absent. -/
def resolveSrcPage (item : PyVal) : PyVal × Option Int :=
  let meta := resolveMeta item
  let sp : PyVal × Option Int :=
    match meta with
    | .dict kvs => (metaSrcChain kvs, _extract_page_from_meta kvs)
    | _ => (.none, Option.none)
  match sp.1, item with
  | .none, .dict kvs =>
    (itemSrcChain kvs,
     if sp.2 = Option.none then _extract_page_from_meta kvs else sp.2)
  | _, _ => sp

/-- Snippet source text for one item (components.py lines 357-363):
the `page_content` attribute when it exists, else for dicts the
`page_content or content or text` chain, else `None`. -/
def itemContent (item : PyVal) : PyVal :=
  match item with
  | .obj attrs =>
    match attrs.lookup "page_content" with
    | some v => v
    | Option.none => .none
  | .dict kvs => pyOrLast [dGet kvs "page_content", dGet kvs "content", dGet kvs "text"]
  | _ => .none

/-- One normalized citation, the model of the `{"source", "page",
"snippet"}` dicts built on components.py line 367. -/
structure NormSource where
  origin : PyVal
  page : Option Int
  snippet : Option String

/-- Normalization of one raw source item (components.py lines 325-367):
items whose resolved origin is not truthy are dropped silently. -/
def normalizeItem (item : PyVal) : Option NormSource :=
  let sp := resolveSrcPage item
  if pyTruthy sp.1 then some ⟨sp.1, sp.2, _make_snippet (itemContent item)⟩
  else Option.none

/-- Python `==` on dedup keys `(source, page)`. -/
def keyBeq (a b : PyVal × Option Int) : Bool :=
  pyBeq a.1 b.1 && (a.2 == b.2)

/-- Deduplication by `(source, page)` keeping first-seen items
(components.py lines 369-377).  Python hashes the key to test `key not
in seen`; an unhashable origin (a list or dict) raises `TypeError`
there — the loop has no try/except. -/
def dedupSourcesAux (seen : List (PyVal × Option Int)) :
    List NormSource → Except PyErr (List NormSource)
  | [] => .ok []
  | s :: rest =>
    if !pyHashable s.origin then .error .typeError
    else if seen.any (keyBeq (s.origin, s.page)) then dedupSourcesAux seen rest
    else (dedupSourcesAux ((s.origin, s.page) :: seen) rest).map (s :: ·)

/-- Python `l[:k]` for an int `k`: a negative bound counts from the end,
clamped at zero. -/
def pySliceTo (l : List NormSource) (k : Int) : List NormSource :=
  if 0 ≤ k then l.take k.toNat else l.take ((l.length : Int) + k).toNat

/-- Top-K truncation (components.py lines 379-383): `RETRIEVAL_TOP_K`
when configured, else `len(dedup)` — i.e. the list unchanged.  (A
non-int configured value makes `int(...)` raise inside the
try/except, also leaving the list unchanged.) -/
def applyTopK (topK : Option Int) (l : List NormSource) : List NormSource :=
  match topK with
  | Option.none => l
  | some k => pySliceTo l k

/-- components.py `_extract_answer_and_sources` (lines 274-385):
answer text via the probe chain, sources gathered, normalized,
deduplicated and truncated.  `topK` is the configured
`RETRIEVAL_TOP_K`. -/
def _extract_answer_and_sources (topK : Option Int) (resp : PyVal) :
    Except PyErr (PyVal × List NormSource) :=
  (dedupSourcesAux [] ((rawSources resp).filterMap normalizeItem)).map
    fun dd => (extractText resp, applyTopK topK dd)

/-! ### Tabular roster extractor (components.py) -/

/-- One CSV row as `csv.DictReader` yields it: header keys to cell
strings.  The pandas branch of the source computes the same row
filter. -/
def Row : Type := List (String × String)

/-- Department-like header substrings (components.py lines 156, 186,
566, 607). -/
def deptColKeywords : List String := ["部署", "部門", "所属", "部"]

/-- Header of a CSV, read off the first row's keys (components.py lines
185, 606). -/
def colsOf (rows : List Row) : List String :=
  match rows with
  | [] => []
  | r :: _ => r.map Prod.fst

/-- Columns whose header contains a department-like substring. -/
def deptColsOf (rows : List Row) : List String :=
  (colsOf rows).filter fun c => deptColKeywords.any fun k => strContains c k

/-- `str(r.get(c, ""))` on a DictReader row. -/
def rowGet (r : Row) (c : String) : String :=
  (r.lookup c).getD ""

/-- Row match (components.py lines 187-193, 609-616): with identified
department columns, some such column equals the department exactly;
otherwise any cell contains it as a substring. -/
def rowMatchesDept (dcols : List String) (dept : String) (r : Row) : Bool :=
  if !dcols.isEmpty then dcols.any fun c => rowGet r c == dept
  else r.any fun p => strContains p.2 dept

/-- The rows of one file matching the department. -/
def matchedRows (dept : String) (rows : List Row) : List Row :=
  rows.filter (rowMatchesDept (deptColsOf rows) dept)

/-- The candidate-file loop shared by
`render_department_listing_from_data_root` (components.py lines 144-207)
and `_try_render_department_listing` (lines 546-633): an unreadable file
(`none`: every encoding failed) or an empty one is skipped; a file whose
matched rows fall below `minRows` is rejected and the next candidate
tried; the first file meeting the threshold renders its matched rows. -/
def renderRosterFromFiles (dept : String) (minRows : Nat) :
    List (Option (List Row)) → Option (List Row)
  | [] => Option.none
  | f :: rest =>
    match f with
    | Option.none => renderRosterFromFiles dept minRows rest
    | some rows =>
      if rows.isEmpty then renderRosterFromFiles dept minRows rest
      else
        let sub := matchedRows dept rows
        if sub.length < minRows then renderRosterFromFiles dept minRows rest
        else some sub

/-- components.py `render_department_listing_from_data_root` (lines
126-210): `files` stands for the recursive CSV glob under the data root,
each entry parsed through the encoding-fallback reader (`none` when
every encoding failed). -/
def render_department_listing_from_data_root (files : List (Option (List Row)))
    (dept_name : String) (min_rows : Nat) : Bool :=
  if files.isEmpty then false
  else (renderRosterFromFiles dept_name min_rows files).isSome

/-- components.py `_try_render_department_listing` (lines 524-635):
collect `.csv`-suffixed string origins from the cited sources, resolve
and read each through `resolveCsv` (the model of
`_resolve_local_data_path` plus the encoding-fallback reader), and run
the candidate-file loop. -/
def _try_render_department_listing (resolveCsv : String → Option (List Row))
    (sources : List NormSource) (dept_name : String) (min_rows : Nat) :
    Option (List Row) :=
  let csvPaths := sources.filterMap fun s =>
    match s.origin with
    | .str p => if strEndsWith (strToLower p) ".csv" then some p else Option.none
    | _ => Option.none
  if csvPaths.isEmpty then Option.none
  else renderRosterFromFiles dept_name min_rows (csvPaths.map resolveCsv)

/-! ### Display-layer cascade (components.py display functions) -/

/-- Outcome of `display_search_llm_response`. -/
inductive SearchDisplay where
  | relatedDocs (msg : String) (sources : List NormSource)
  | noMatch (msg : String)
  | normal (text : PyVal) (sources : List NormSource)

/-- Quoted-empty normalization (components.py lines 70-71), applied in
the document-search display mode only: a stripped `""` or `''` literal
becomes the true empty string. -/
def normalizeQuotedEmpty : PyVal → PyVal
  | .str s =>
    if pyStrip s = "\x22\x22" || pyStrip s = "\x27\x27" then .str "" else .str s
  | v => v

/-- components.py `display_search_llm_response` (lines 67-86):
normalize quoted-empty, then blank text with sources shows the
related-documents notice, blank text without sources shows the
configured no-match message, and anything else is rendered normally. -/
def display_search_llm_response (noDocMatchAnswer : String)
    (topK : Option Int) (resp : PyVal) : Except PyErr SearchDisplay :=
  (_extract_answer_and_sources topK resp).map fun ts =>
    match normalizeQuotedEmpty ts.1 with
    | .str s =>
      if pyStrip s = "" then
        if !ts.2.isEmpty then
          .relatedDocs "関連する社内文書が見つかりました。下記の参照ドキュメントをご確認ください。" ts.2
        else .noMatch noDocMatchAnswer
      else .normal (.str s) ts.2
    | t => .normal t ts.2

/-- Outcome of `display_contact_llm_response`. -/
inductive ContactDisplay where
  | rosterShown (ret : String) (sources : List NormSource)
  | envFallback (ret : String) (sources : List NormSource)
  | warnNoAnswer (msg : String) (sources : List NormSource)
  | normal (text : PyVal) (sources : List NormSource)

/-- components.py `display_contact_llm_response` (lines 89-118): when
the text is blank or verbatim the configured no-answer sentinel AND
sources are present, try the roster rendering for 人事部, then the
environment fallback, then the no-answer warning; in every other case
(including blank text with NO sources) fall through to the normal
display of the raw text.  No quoted-empty normalization happens in this
mode.  `noAnswerMsg` is the configured `INQUIRY_NO_MATCH_ANSWER`,
`userPrompt` the last user message recovered from the conversation
log. -/
def display_contact_llm_response (resolveCsv : String → Option (List Row))
    (noAnswerMsg userPrompt : String) (topK : Option Int) (resp : PyVal) :
    Except PyErr ContactDisplay :=
  (_extract_answer_and_sources topK resp).map fun ts =>
    let text := ts.1
    let sources := ts.2
    let isEmpty := match text with | .str s => pyStrip s == "" | _ => false
    let isNoAnswer := match text with | .str s => pyStrip s == noAnswerMsg | _ => false
    if (isEmpty || isNoAnswer) && !sources.isEmpty then
      let rosterOk :=
        if looksLikeDeptListingRequestStr userPrompt "人事部" then
          (_try_render_department_listing resolveCsv sources "人事部" 4).isSome
        else false
      if rosterOk then
        .rosterShown (userPrompt ++ " に対して、従業員一覧を表示しました。") sources
      else if looksLikeEnvironmentRequest userPrompt then
        .envFallback "一般的な観点による補足情報を提示しました。" sources
      else .warnNoAnswer noAnswerMsg sources
    else .normal text sources

/-! ### Claims C5 and C6 -/

theorem pyStrip_empty : pyStrip "" = "" := rfl

theorem pyOrLast_append_singleton (l : List PyVal) (d : PyVal) :
    pyOrLast (l ++ [d]) = (l.find? pyTruthy).getD d := by
  induction l with
  | nil => simp [pyOrLast]
  | cons v t ih =>
    have hne : ((t ++ [d]).isEmpty) = false := by
      simp [List.isEmpty_iff]
    by_cases hv : pyTruthy v
    · simp [pyOrLast, List.find?_cons_of_pos _ hv, hne, hv]
    · have hv' : pyTruthy v = false := by simpa using hv
      simp [pyOrLast, List.find?_cons_of_neg _ hv, hne, hv', ih]

/-- Claim C5 (amended): answer-text extraction probes the fixed priority
list `answer, content, text, output_text, result, message, response` on
attribute-style access then mapping-style access, the first present
non-empty (truthy) value wins, `str(resp)` is used when none match, and
a literal quoted empty string is normalized to true empty in the
document-search display mode (the inquiry/contact mode applies no such
normalization). -/
theorem c5_text_extraction_priority_amended :
    (∀ resp : PyVal, extractText resp = extractTextSpec resp) ∧
    (∀ s : String, pyStrip s = "\x22\x22" ∨ pyStrip s = "\x27\x27" →
      normalizeQuotedEmpty (.str s) = .str "") := by
  constructor
  · intro resp
    unfold extractText extractTextSpec
    rw [List.append_assoc, ← List.append_assoc, pyOrLast_append_singleton]
    cases h : (((textProbeKeys.map (getattrOpt resp)) ++
        (textProbeKeys.map (dictGetOpt resp))).find? pyTruthy) <;> simp [h]
  · intro s hs
    rcases hs with h | h <;> simp [normalizeQuotedEmpty, h]

/-- Claim C5 witness: the search-mode normalization at the concrete
quoted-empty text. -/
theorem c5_text_extraction_priority_amended_witness :
    normalizeQuotedEmpty (.str "\x22\x22") = .str "" :=
  c5_text_extraction_priority_amended.2 "\x22\x22" (Or.inl (by decide))

/-- Claim C5 counterexample: in the inquiry/contact display mode a
literal quoted empty string is NOT normalized to true empty — the
response whose `answer` key holds `'""'` is displayed verbatim through
the normal branch, refuting the claim's "in both display modes". -/
theorem c5_contact_mode_not_normalized_cex :
    display_contact_llm_response (fun _ => Option.none)
      "回答に必要な情報が見つかりませんでした。" "" Option.none
      (.dict [("answer", .str "\x22\x22")]) =
      .ok (.normal (.str "\x22\x22") []) := rfl

/-- Claim C6 (amended): with no extracted sources, neither mode attempts
roster extraction or the generic topic fallback; the document-search
mode terminates directly with the configured no-match message whenever
the (quoted-empty-normalized) answer text is blank, while the
inquiry/contact mode falls through to the normal display of the raw
text (so a blank text yields a blank answer rather than the no-match
warning). -/
theorem c6_empty_no_sources_amended :
    (∀ (noDoc : String) (topK : Option Int) (resp : PyVal) (s : String),
      _extract_answer_and_sources topK resp = .ok (.str s, []) →
      pyStrip s = "" ∨ pyStrip s = "\x22\x22" ∨ pyStrip s = "\x27\x27" →
      display_search_llm_response noDoc topK resp = .ok (.noMatch noDoc)) ∧
    (∀ (resolveCsv : String → Option (List Row)) (noAnswerMsg userPrompt : String)
       (topK : Option Int) (resp : PyVal) (t : PyVal),
      _extract_answer_and_sources topK resp = .ok (t, []) →
      display_contact_llm_response resolveCsv noAnswerMsg userPrompt topK resp =
        .ok (.normal t [])) := by
  constructor
  · intro noDoc topK resp s hx hs
    unfold display_search_llm_response
    rw [hx]
    rcases hs with h | h | h <;>
      simp [Except.map, normalizeQuotedEmpty, h, pyStrip_empty]
  · intro resolveCsv noAnswerMsg userPrompt topK resp t hx
    unfold display_contact_llm_response
    rw [hx]
    simp [Except.map]

/-- Claim C6 witness: the two branches at the concrete blank response. -/
theorem c6_empty_no_sources_amended_witness :
    display_search_llm_response "該当資料なし" Option.none (.str "") =
      .ok (.noMatch "該当資料なし") ∧
    display_contact_llm_response (fun _ => Option.none)
      "回答に必要な情報が見つかりませんでした。" "q" Option.none (.str "") =
      .ok (.normal (.str "") []) :=
  ⟨c6_empty_no_sources_amended.1 "該当資料なし" Option.none (.str "") "" rfl
     (Or.inl rfl),
   c6_empty_no_sources_amended.2 (fun _ => Option.none)
     "回答に必要な情報が見つかりませんでした。" "q" Option.none (.str "") (.str "") rfl⟩

/-- Claim C6 counterexample: in the inquiry/contact mode a blank answer
with no sources does NOT terminate with the configured no-match message:
even for a roster-style prompt the turn falls through to the normal
display of the empty text, refuting the claim's "in both modes". -/
theorem c6_contact_blank_no_sources_cex :
    display_contact_llm_response (fun _ => Option.none)
      "回答に必要な情報が見つかりませんでした。" "人事部の社員一覧をまとめて"
      Option.none (.str "") =
      .ok (.normal (.str "") []) := rfl

/-! ### Deduplication lemmas and claims C7, C10 -/

theorem pyHashable_of_isScalar (v : PyVal) (h : isScalar v = true) :
    pyHashable v = true := by
  cases v <;> simp_all [isScalar, pyHashable]

theorem keyBeq_eq_iff (a b : PyVal × Option Int) (h : isScalar a.1 = true) :
    keyBeq a b = true ↔ a = b := by
  obtain ⟨a1, a2⟩ := a
  obtain ⟨b1, b2⟩ := b
  simp only [keyBeq, Bool.and_eq_true, beq_iff_eq, Prod.mk.injEq]
  rw [pyBeq_scalar_eq _ _ h]

theorem dedup_spec (l : List NormSource) :
    ∀ seen : List (PyVal × Option Int),
      (∀ s ∈ l, isScalar s.origin = true) →
      ∃ dd, dedupSourcesAux seen l = .ok dd ∧
        dd.Sublist l ∧
        (∀ t ∈ dd, seen.any (keyBeq (t.origin, t.page)) = false ∧
          l.find? (fun s => keyBeq (s.origin, s.page) (t.origin, t.page)) = some t) ∧
        (∀ s ∈ l, seen.any (keyBeq (s.origin, s.page)) = true ∨
          ∃ t ∈ dd, (t.origin, t.page) = (s.origin, s.page)) := by
  induction l with
  | nil =>
    intro seen _
    exact ⟨[], rfl, List.nil_sublist _, by simp, by simp⟩
  | cons s rest ih =>
    intro seen hl
    have hs : isScalar s.origin = true := hl s (by simp)
    have hrest : ∀ x ∈ rest, isScalar x.origin = true :=
      fun x hx => hl x (by simp [hx])
    have hhash : pyHashable s.origin = true := pyHashable_of_isScalar _ hs
    by_cases hmem : seen.any (keyBeq (s.origin, s.page)) = true
    · obtain ⟨dd, heq, hsub, hfirst, hcover⟩ := ih seen hrest
      refine ⟨dd, ?_, hsub.cons s, ?_, ?_⟩
      · simp [dedupSourcesAux, hhash, hmem, heq]
      · intro t ht
        obtain ⟨hseen, hfind⟩ := hfirst t ht
        refine ⟨hseen, ?_⟩
        have hne : keyBeq (s.origin, s.page) (t.origin, t.page) = false := by
          by_contra hc
          have hkey : (s.origin, s.page) = (t.origin, t.page) :=
            (keyBeq_eq_iff (s.origin, s.page) (t.origin, t.page) hs).mp
              (by simpa using hc)
          rw [hkey] at hmem
          exact absurd hmem (by simp [hseen])
        rw [List.find?_cons_of_neg _ (by simp [hne]), hfind]
      · intro x hx
        rcases List.mem_cons.mp hx with rfl | hx
        · exact Or.inl hmem
        · exact hcover x hx
    · have hmem' : seen.any (keyBeq (s.origin, s.page)) = false := by
        simpa using hmem
      obtain ⟨dd, heq, hsub, hfirst, hcover⟩ :=
        ih ((s.origin, s.page) :: seen) hrest
      refine ⟨s :: dd, ?_, hsub.cons₂ s, ?_, ?_⟩
      · simp [dedupSourcesAux, hhash, hmem', heq, Except.map]
      · intro t ht
        rcases List.mem_cons.mp ht with rfl | ht
        · refine ⟨hmem', ?_⟩
          have hrefl : keyBeq (t.origin, t.page) (t.origin, t.page) = true :=
            (keyBeq_eq_iff (t.origin, t.page) (t.origin, t.page) hs).mpr rfl
          simp [List.find?, hrefl]
        · obtain ⟨hseen, hfind⟩ := hfirst t ht
          rw [List.any_cons] at hseen
          have hparts := Bool.or_eq_false_iff.mp hseen
          refine ⟨hparts.2, ?_⟩
          have hne : keyBeq (s.origin, s.page) (t.origin, t.page) = false := by
            by_contra hc
            have hkey : (s.origin, s.page) = (t.origin, t.page) :=
              (keyBeq_eq_iff (s.origin, s.page) (t.origin, t.page) hs).mp
                (by simpa using hc)
            have h1 := hparts.1
            rw [← hkey] at h1
            have h2 : keyBeq (s.origin, s.page) (s.origin, s.page) = true :=
              (keyBeq_eq_iff (s.origin, s.page) (s.origin, s.page) hs).mpr rfl
            rw [h1] at h2
            exact Bool.false_ne_true h2
          rw [List.find?_cons_of_neg _ (by simp [hne]), hfind]
      · intro x hx
        rcases List.mem_cons.mp hx with rfl | hx
        · exact Or.inr ⟨x, by simp, rfl⟩
        · rcases hcover x hx with hseenx | ⟨t, ht, hkey⟩
          · rw [List.any_cons] at hseenx
            rcases Bool.or_eq_true_iff.mp hseenx with h | h
            · have hxs : isScalar x.origin = true := hrest x hx
              have hkey : (x.origin, x.page) = (s.origin, s.page) :=
                (keyBeq_eq_iff (x.origin, x.page) (s.origin, s.page) hxs).mp h
              exact Or.inr ⟨s, by simp, hkey.symm⟩
            · exact Or.inl h
          · exact Or.inr ⟨t, by simp [ht], hkey⟩

theorem dedup_of_pairwise (l : List NormSource) :
    ∀ seen : List (PyVal × Option Int),
      (∀ s ∈ l, isScalar s.origin = true) →
      (∀ s ∈ l, seen.any (keyBeq (s.origin, s.page)) = false) →
      l.Pairwise (fun a b => keyBeq (a.origin, a.page) (b.origin, b.page) = false) →
      dedupSourcesAux seen l = .ok l := by
  induction l with
  | nil => intro seen _ _ _; rfl
  | cons s rest ih =>
    intro seen hl hseen hpair
    have hs : isScalar s.origin = true := hl s (by simp)
    have hhash : pyHashable s.origin = true := pyHashable_of_isScalar _ hs
    have hmem : seen.any (keyBeq (s.origin, s.page)) = false := hseen s (by simp)
    rw [List.pairwise_cons] at hpair
    have hrec := ih ((s.origin, s.page) :: seen)
      (fun x hx => hl x (by simp [hx]))
      (fun x hx => by
        rw [List.any_cons]
        have hxs : isScalar x.origin = true := hl x (by simp [hx])
        have h1 : keyBeq (x.origin, x.page) (s.origin, s.page) = false := by
          by_contra hc
          have hkey : (x.origin, x.page) = (s.origin, s.page) :=
            (keyBeq_eq_iff (x.origin, x.page) (s.origin, s.page) hxs).mp
              (by simpa using hc)
          have h2 := hpair.1 x hx
          rw [← hkey] at h2
          have h3 : keyBeq (x.origin, x.page) (x.origin, x.page) = true :=
            (keyBeq_eq_iff (x.origin, x.page) (x.origin, x.page) hxs).mpr rfl
          rw [h2] at h3
          exact Bool.false_ne_true h3
        simp [h1, hseen x (by simp [hx])])
      hpair.2
    simp [dedupSourcesAux, hhash, hmem, hrec, Except.map]

theorem dedup_ok_of_hashable (l : List NormSource) :
    ∀ seen : List (PyVal × Option Int),
      (∀ s ∈ l, pyHashable s.origin = true) →
      ∃ dd, dedupSourcesAux seen l = .ok dd := by
  induction l with
  | nil => intro seen _; exact ⟨[], rfl⟩
  | cons s rest ih =>
    intro seen hl
    have hhash : pyHashable s.origin = true := hl s (by simp)
    by_cases hmem : seen.any (keyBeq (s.origin, s.page)) = true
    · obtain ⟨dd, heq⟩ := ih seen (fun x hx => hl x (by simp [hx]))
      exact ⟨dd, by simp [dedupSourcesAux, hhash, hmem, heq]⟩
    · have hmem' : seen.any (keyBeq (s.origin, s.page)) = false := by
        simpa using hmem
      obtain ⟨dd, heq⟩ :=
        ih ((s.origin, s.page) :: seen) (fun x hx => hl x (by simp [hx]))
      exact ⟨s :: dd, by simp [dedupSourcesAux, hhash, hmem', heq, Except.map]⟩

/-- Claim C7: normalization deduplicates extracted sources by the exact
pair `(origin, page)` keeping the first-seen item (with its snippet) in
first-appearance order, then truncates to the configured top-K, with no
truncation when no K is configured.  Stated for source lists whose
origins are scalar values, where Python hashing and `==` are the
structural comparison modelled by `keyBeq`. -/
theorem c7_dedup_topk (l : List NormSource)
    (hl : ∀ s ∈ l, isScalar s.origin = true) :
    ∃ dd, dedupSourcesAux [] l = .ok dd ∧
      dd.Sublist l ∧
      (∀ t ∈ dd,
        l.find? (fun s => keyBeq (s.origin, s.page) (t.origin, t.page)) = some t) ∧
      (∀ s ∈ l, ∃ t ∈ dd, (t.origin, t.page) = (s.origin, s.page)) ∧
      applyTopK Option.none dd = dd ∧
      (∀ k : Nat, applyTopK (some (k : Int)) dd = dd.take k) ∧
      (l.Pairwise (fun a b => keyBeq (a.origin, a.page) (b.origin, b.page) = false) →
        dd = l) := by
  obtain ⟨dd, heq, hsub, hfirst, hcover⟩ := dedup_spec l [] hl
  refine ⟨dd, heq, hsub, fun t ht => (hfirst t ht).2, ?_, rfl, ?_, ?_⟩
  · intro s hs
    rcases hcover s hs with h | h
    · simp at h
    · exact h
  · intro k
    have hk : (0 : Int) ≤ (k : Int) := Int.natCast_nonneg k
    simp [applyTopK, pySliceTo, hk]
  · intro hpair
    have hok := dedup_of_pairwise l [] hl (by simp) hpair
    rw [heq] at hok
    exact (Except.ok.injEq _ _).mp hok

/-- Concrete sources for the C7 witness. -/
def sampleSrc (p : String) : NormSource :=
  ⟨.str p, Option.none, Option.none⟩

/-- Five distinct sources, as in the spec's top-K example. -/
def sample5 : List NormSource :=
  [sampleSrc "a.pdf", sampleSrc "b.pdf", sampleSrc "c.pdf",
   sampleSrc "d.pdf", sampleSrc "e.pdf"]

/-- Claim C7 witness: five distinct sources pass deduplication unchanged
and K = 2 keeps exactly the first two in original order. -/
theorem c7_dedup_topk_witness :
    ∃ dd, dedupSourcesAux [] sample5 = .ok dd ∧ dd = sample5 ∧
      applyTopK (some 2) dd = [sampleSrc "a.pdf", sampleSrc "b.pdf"] := by
  obtain ⟨dd, heq, -, -, -, -, -, hpair⟩ := c7_dedup_topk sample5 (by decide)
  have hdd : dd = sample5 := hpair (by decide)
  refine ⟨dd, heq, hdd, ?_⟩
  rw [hdd]
  rfl

/-- Claim C10 (amended): the Response Normalizer always returns a
`(text, sources)` pair — and in particular never raises — for every
input whose resolved source origins are all hashable; any probe that
cannot resolve a field yields absent, and an item whose resolved origin
is not truthy is dropped silently.  (An unhashable origin — a list or
dict — instead raises `TypeError` in deduplication; see the
counterexample.) -/
theorem c10_normalizer_total_amended :
    (∀ item : PyVal, pyTruthy (resolveSrcPage item).1 = false →
      normalizeItem item = Option.none) ∧
    (∀ (topK : Option Int) (resp : PyVal),
      (∀ s ∈ (rawSources resp).filterMap normalizeItem,
        pyHashable s.origin = true) →
      ∃ t dd, _extract_answer_and_sources topK resp = .ok (t, dd)) := by
  constructor
  · intro item h
    simp [normalizeItem, h]
  · intro topK resp h
    obtain ⟨dd, heq⟩ := dedup_ok_of_hashable _ [] h
    exact ⟨extractText resp, applyTopK topK dd,
      by simp [_extract_answer_and_sources, heq, Except.map]⟩

/-- Claim C10 witness: an item with no resolvable origin is dropped, and
a well-formed response normalizes without raising. -/
theorem c10_normalizer_total_amended_witness :
    normalizeItem (.dict [("x", .int 1)]) = Option.none ∧
    ∃ t dd, _extract_answer_and_sources Option.none
      (.dict [("answer", .str "ok"),
              ("context", .list [.dict [("metadata",
                .dict [("source", .str "a.pdf"), ("page", .int 2)])]])]) =
      .ok (t, dd) :=
  ⟨c10_normalizer_total_amended.1 (.dict [("x", .int 1)]) (by decide),
   c10_normalizer_total_amended.2 Option.none _ (by decide)⟩

/-- Claim C10 counterexample: the normalizer DOES raise for some input
shape — a source item whose `source` value is a list (truthy, so kept as
an origin, but unhashable) makes the dedup key hashing raise
`TypeError`, refuting "never raises for any input value of any
shape". -/
theorem c10_normalizer_raises_cex :
    _extract_answer_and_sources Option.none
      (.dict [("sources", .list [.dict [("source", .list [.str "a"])]])]) =
      .error .typeError := rfl

/-! ### Claim C8 -/

/-- Claim C8: a candidate tabular file is accepted and rendered only if
its matched-row count meets the configured minimum; when every readable
candidate's matched rows fall below the threshold, the scan yields no
roster (NoMatch), and any rendered output is exactly the matched-row
set of some candidate file, of at least threshold size. -/
theorem c8_roster_threshold :
    (∀ (dept : String) (minRows : Nat) (files : List (Option (List Row))),
      (∀ rows : List Row, some rows ∈ files →
        (matchedRows dept rows).length < minRows) →
      renderRosterFromFiles dept minRows files = Option.none) ∧
    (∀ (dept : String) (minRows : Nat) (files : List (Option (List Row)))
       (out : List Row),
      renderRosterFromFiles dept minRows files = some out →
      minRows ≤ out.length ∧
        ∃ rows : List Row, some rows ∈ files ∧ out = matchedRows dept rows) := by
  constructor
  · intro dept minRows files
    induction files with
    | nil => intro _; rfl
    | cons f rest ih =>
      intro h
      have hrest : ∀ rows : List Row, some rows ∈ rest →
          (matchedRows dept rows).length < minRows :=
        fun rows hr => h rows (by simp [hr])
      match f with
      | Option.none => simpa [renderRosterFromFiles] using ih hrest
      | some rows =>
        by_cases hemp : rows.isEmpty
        · simpa [renderRosterFromFiles, hemp] using ih hrest
        · have hlt : (matchedRows dept rows).length < minRows :=
            h rows (by simp)
          simpa [renderRosterFromFiles, hemp, hlt] using ih hrest
  · intro dept minRows files
    induction files with
    | nil => intro out h; simp [renderRosterFromFiles] at h
    | cons f rest ih =>
      intro out h
      match f with
      | Option.none =>
        rw [renderRosterFromFiles] at h
        obtain ⟨hlen, rows, hmem, hout⟩ := ih out h
        exact ⟨hlen, rows, by simp [hmem], hout⟩
      | some rows =>
        rw [renderRosterFromFiles] at h
        by_cases hemp : rows.isEmpty
        · rw [if_pos hemp] at h
          obtain ⟨hlen, rows', hmem, hout⟩ := ih out h
          exact ⟨hlen, rows', by simp [hmem], hout⟩
        · rw [if_neg hemp] at h
          by_cases hlt : (matchedRows dept rows).length < minRows
          · rw [if_pos hlt] at h
            obtain ⟨hlen, rows', hmem, hout⟩ := ih out h
            exact ⟨hlen, rows', by simp [hmem], hout⟩
          · rw [if_neg hlt] at h
            have hout : out = matchedRows dept rows := by
              exact (Option.some.injEq _ _).mp h.symm
            refine ⟨?_, rows, by simp, hout⟩
            rw [hout]
            exact Nat.le_of_not_lt hlt

/-- A 人事部 row keyed by the department column, for the C8 witness. -/
def hrRow (name : String) : Row :=
  [("氏名", name), ("部署", "人事部")]

/-- A row of another department, for the C8 witness. -/
def otherRow (name : String) : Row :=
  [("氏名", name), ("部署", "営業部")]

/-- A CSV with only 3 matching rows: below the default threshold 4. -/
def roster3 : List Row :=
  [hrRow "佐藤", hrRow "鈴木", hrRow "高橋", otherRow "田中"]

/-- A CSV with exactly 4 matching rows: meets the default threshold. -/
def roster4 : List Row :=
  [hrRow "佐藤", hrRow "鈴木", hrRow "高橋", hrRow "伊藤", otherRow "田中"]

/-- Claim C8 witness: with the default threshold 4, a lone candidate
with 3 matching rows yields no roster, and a scan whose second candidate
has 4 matching rows renders exactly those 4 rows. -/
theorem c8_roster_threshold_witness :
    renderRosterFromFiles "人事部" 4 [some roster3] = Option.none ∧
    (4 ≤ (matchedRows "人事部" roster4).length ∧
      ∃ rows : List Row, some rows ∈ [some roster3, some roster4] ∧
        matchedRows "人事部" roster4 = matchedRows "人事部" rows) := by
  constructor
  · refine c8_roster_threshold.1 "人事部" 4 [some roster3] ?_
    intro rows hmem
    have : some rows = some roster3 := by simpa using hmem
    have hr : rows = roster3 := (Option.some.injEq _ _).mp this
    subst hr
    decide
  · exact c8_roster_threshold.2 "人事部" 4 [some roster3, some roster4]
      (matchedRows "人事部" roster4) (by rfl)

end StreamLastDeploy
